import Mathlib

/-!
  Verification development for the Amazon high-value-item sniper bot
  (src/amazon-high-value-item-sniper-bot.py, class AmazonUltraFastBot).

  The Python program is shallowly embedded: every method relevant to the
  claims is translated into a pure Lean function.  External effects
  (HTTP responses, the browser DOM, the file system, wall-clock time,
  exceptions raised by library calls) are supplied through explicit
  environment records, one field per external interaction, so the control
  flow of each Lean definition mirrors the control flow of the Python
  source line by line.  Prices and timestamps are modelled as exact
  rationals; Python float results of the forms produced here are decimal
  numerals, which the rational model represents exactly.
-/

set_option linter.unusedVariables false

namespace SniperBot

/-! ## String containment

  Models the Python substring test (the in operator on str). -/

/-- Whether the first character list is a prefix of the second
    (position-wise match used by the substring scan). -/
def leadsWith : List Char → List Char → Bool
  | [], _ => true
  | _ :: _, [] => false
  | a :: as, b :: bs => a == b && leadsWith as bs

/-- Whether the needle occurs in the haystack at some position. -/
def hasSub (needle : List Char) : List Char → Bool
  | [] => needle.isEmpty
  | c :: rest => leadsWith needle (c :: rest) || hasSub needle rest

/-- Python: pat in hay (substring containment on strings). -/
def strContains (hay pat : String) : Bool :=
  hasSub pat.data hay.data

/-! ## Price-extraction regexes (_compile_price_patterns / extract_price)

  The four compiled patterns are, in source order (lines 130-137):
    re.compile of dollar, group of digits-or-commas, dot, two digits
    re.compile of dollar, group of digits-or-commas
    re.compile of group of digits-or-commas, dot, two digits, spaces, dollar
    re.compile of group of digits-or-commas, dot, two digits
  Each pattern is deterministic: the digits-or-commas class excludes the
  dot, so the greedy plus never backtracks, and the two-digit part is of
  fixed width.  Each matcher below takes the suffix of the text starting
  at a candidate position and returns the captured group on success;
  findFirstMatch scans positions left to right exactly as re.findall does
  for the leftmost match, whose group is what matches[0] yields. -/

/-- The character class of digits or comma used in all four patterns. -/
def isDigitComma (c : Char) : Bool := c.isDigit || c == ','

/-- Whitespace characters matched by a backslash-s in a Python pattern
    (ASCII part; the test inputs in this file are ASCII). -/
def pyIsSpace (c : Char) : Bool :=
  c == ' ' || c == '\t' || c == '\n' || c == '\r' || c == '\x0b' || c == '\x0c'

/-- Match digits-or-commas (one or more), a dot and exactly two digits at
    the head of the list; return the matched group and the remainder. -/
def decTwoAt (cs : List Char) : Option (List Char × List Char) :=
  let run := cs.takeWhile isDigitComma
  let after := cs.dropWhile isDigitComma
  if run.isEmpty then none
  else
    match after with
    | '.' :: d1 :: d2 :: rest =>
      if d1.isDigit && d2.isDigit then some (run ++ '.' :: d1 :: d2 :: [], rest) else none
    | _ => none

/-- First pattern: dollar sign, then an amount with two decimals. -/
def matchP1At (cs : List Char) : Option (List Char) :=
  match cs with
  | '$' :: rest => (decTwoAt rest).map Prod.fst
  | _ => none

/-- Second pattern: dollar sign, then a digits-or-commas run. -/
def matchP2At (cs : List Char) : Option (List Char) :=
  match cs with
  | '$' :: rest =>
    let run := rest.takeWhile isDigitComma
    if run.isEmpty then none else some run
  | _ => none

/-- Third pattern: amount with two decimals, optional spaces, dollar sign. -/
def matchP3At (cs : List Char) : Option (List Char) :=
  match decTwoAt cs with
  | some (g, rest) =>
    match rest.dropWhile pyIsSpace with
    | '$' :: _ => some g
    | _ => none
  | none => none

/-- Fourth pattern: a bare amount with two decimals. -/
def matchP4At (cs : List Char) : Option (List Char) :=
  (decTwoAt cs).map Prod.fst

/-- Leftmost match of a positional matcher, scanning left to right;
    models the first element of re.findall when it is non-empty. -/
def findFirstMatch (m : List Char → Option (List Char)) : List Char → Option (List Char)
  | [] => m []
  | c :: rest =>
    match m (c :: rest) with
    | some g => some g
    | none => findFirstMatch m rest

/-- The tuple returned by _compile_price_patterns, in source order. -/
def price_patterns : List (List Char → Option (List Char)) :=
  [matchP1At, matchP2At, matchP3At, matchP4At]

/-- Python: matches[0].replace(',', ''). -/
def removeCommas (cs : List Char) : List Char :=
  cs.filter (fun c => !(c == ','))

/-- Value of a digit string (most significant first). -/
def digitsVal (cs : List Char) : ℕ :=
  cs.foldl (fun acc c => 10 * acc + (c.toNat - '0'.toNat)) 0

/-- Python float() applied to a comma-stripped group.  The groups the four
    patterns can produce consist of digits optionally followed by a dot and
    two digits; float() parses those exactly (modelled as a rational) and
    raises ValueError on the empty string, modelled by none. -/
def pyFloatOfDigits (cs : List Char) : Option ℚ :=
  let ip := cs.takeWhile Char.isDigit
  let after := cs.dropWhile Char.isDigit
  match after with
  | [] => if cs.isEmpty then none else some (digitsVal ip)
  | '.' :: frac =>
    if !frac.isEmpty && frac.all Char.isDigit then
      some ((digitsVal ip : ℚ) + (digitsVal frac : ℚ) / ((10 : ℚ) ^ frac.length))
    else none
  | _ => none

/-- Conversion applied by extract_price to the first match of the winning
    pattern: float(matches[0].replace(',', '')).  A none from the float
    model is an uncaught ValueError. -/
def convGroup (g : List Char) : Except Unit (Option ℚ) :=
  match pyFloatOfDigits (removeCommas g) with
  | some q => Except.ok (some q)
  | none => Except.error ()

/-- The loop body of extract_price over the remaining patterns. -/
def extract_price_aux (text : List Char) :
    List (List Char → Option (List Char)) → Except Unit (Option ℚ)
  | [] => Except.ok none
  | p :: ps =>
    match findFirstMatch p text with
    | some g => convGroup g
    | none => extract_price_aux text ps

/-- extract_price (source lines 581-587): try each compiled pattern in
    order; on the first pattern with matches, return
    float(matches[0].replace(',', '')); otherwise None.  An error value
    models the uncaught ValueError from float(). -/
def extract_price (text : String) : Except Unit (Option ℚ) :=
  extract_price_aux text.data price_patterns

/-! ## Bot state

  The mutable attributes of AmazonUltraFastBot relevant to the claims,
  together with the two module-level globals (exit_requested and
  exit_in_progress).  The purchase record maps URL keys to the
  purchased_at timestamp of the stored value dict. -/

/-- The in-memory purchase record: URL keys with purchase timestamps. -/
abbrev PRecord := List (String × ℚ)

structure BotState where
  product_url : String
  max_price : ℚ
  purchase_record : PRecord
  purchase_attempted : Bool
  purchase_successful : Bool
  current_price : Option ℚ
  price_source : Option String
  in_stock_prices : List ℚ
  exit_requested_global : Bool
  exit_in_progress : Bool
  self_exit_requested : Bool
  last_ctrl_c_time : Option ℚ
  driver_open : Bool
  pools_shutdown : Bool
  check_count : ℕ
  api_check_counter : ℕ
  browser_check_counter : ℕ
deriving DecidableEq

/-- update_price_status (lines 139-143); the terminal display is IO only. -/
def update_price_status (price : ℚ) (source : String) (s : BotState) : BotState :=
  { s with current_price := some price, price_source := some source }

/-- cleanup (lines 257-288): set self.exit_requested, return early if the
    driver is already gone, otherwise quit the browser and shut down both
    thread pools.  Note the early return skips the pool shutdown. -/
def cleanup (s : BotState) : BotState :=
  let s1 := { s with self_exit_requested := true }
  if s1.driver_open = false then s1
  else { s1 with driver_open := false, pools_shutdown := true }

/-- The key set of a purchase record. -/
def recordKeys (r : PRecord) : List String := r.map Prod.fst

/-- has_been_purchased (lines 303-305): product_url in purchase_record. -/
def has_been_purchased (s : BotState) : Bool :=
  s.purchase_record.any (fun kv => kv.fst == s.product_url)

/-- Python dict assignment record[url] = value on the modelled record. -/
def recordInsert (r : PRecord) (k : String) (v : ℚ) : PRecord :=
  if r.any (fun kv => kv.fst == k) then
    r.map (fun kv => if kv.fst == k then (k, v) else kv)
  else r ++ [(k, v)]

/-! ## load_purchase_record and mark_as_purchased -/

/-- External outcomes seen by load_purchase_record: whether
    purchase_record.json exists, what json.load yields (none models an
    open/read/parse exception), and whether creating the file succeeds. -/
structure LoadEnv where
  fileExists : Bool
  parsed : Option PRecord
  writeOk : Bool

/-- The try-block of load_purchase_record (lines 290-301); an error value
    is an exception escaping the block.  The result pairs the in-memory
    record with the content written to the file by this call, if any. -/
def load_purchase_record_body (env : LoadEnv) : Except Unit (PRecord × Option PRecord) :=
  if env.fileExists then
    match env.parsed with
    | some r => Except.ok (r, none)
    | none => Except.error ()
  else
    if env.writeOk then Except.ok ([], some []) else Except.error ()

/-- load_purchase_record with its except-clause: any exception from the
    body is swallowed and the record is reset to empty. -/
def load_purchase_record (env : LoadEnv) : PRecord × Option PRecord :=
  match load_purchase_record_body env with
  | Except.ok out => out
  | Except.error _ => ([], none)

/-- External outcome seen by mark_as_purchased: the current time and
    whether writing purchase_record.json succeeds. -/
structure MarkEnv where
  now : ℚ
  writeOk : Bool

/-- The try-block of mark_as_purchased (lines 307-318): the record is
    updated in memory first, then the file is written, and only then is
    purchase_successful set.  An error carries the state at the point the
    write raised: record updated, flag untouched. -/
def mark_as_purchased_body (env : MarkEnv) (s : BotState) : Except BotState BotState :=
  let s1 := { s with purchase_record := recordInsert s.purchase_record s.product_url env.now }
  if env.writeOk then Except.ok { s1 with purchase_successful := true }
  else Except.error s1

/-- mark_as_purchased with its except-pass: exceptions are swallowed. -/
def mark_as_purchased (env : MarkEnv) (s : BotState) : BotState :=
  match mark_as_purchased_body env s with
  | Except.ok s' => s'
  | Except.error s' => s'

/-! ## Stock checks -/

/-- The parts of the product page DOM inspected by the execute_script
    block of check_stock_and_price (lines 654-671). -/
structure DomView where
  hasAddToCart : Bool
  addToCartDisabled : Bool
  hasBuyNow : Bool
  buyNowDisabled : Bool
  pageHasCurrentlyUnavailable : Bool
deriving DecidableEq

/-- The JavaScript availability check run by check_stock_and_price:
    true iff the add-to-cart button exists and is not disabled, else iff
    the buy-now button exists and is not disabled; the page-text branch
    and the fall-through both return false. -/
def js_stock_available (d : DomView) : Bool :=
  if d.hasAddToCart && !d.addToCartDisabled then true
  else if d.hasBuyNow && !d.buyNowDisabled then true
  else if d.pageHasCurrentlyUnavailable then false
  else false

/-- External outcomes seen by check_stock_and_price: the DOM as seen by
    execute_script (none models the script raising), the two
    get_product_price results (that method catches internally and yields
    None on failure, so it is modelled as an opaque optional price), the
    fetched HTML chunk of the fallback (none models the request raising),
    and whether the driver.get navigation in the fallback succeeds. -/
structure BrowserEnv where
  jsDom : Option DomView
  priceAfterJs : Option ℚ
  fetched : Option String
  fetchNavOk : Bool
  priceAfterFetch : Option ℚ

/-- The fetched-HTML fallback block of check_stock_and_price
    (lines 681-698): if the streamed chunk contains the
    add-to-cart-button text and does not contain Currently unavailable,
    navigate the browser to the product page and compare the scraped
    price against max_price; any exception yields false. -/
def check_stock_fallback (env : BrowserEnv) (s0 : BotState) : Bool × BotState :=
  match env.fetched with
  | some content =>
    if strContains content "add-to-cart-button" && !strContains content "Currently unavailable" then
      if env.fetchNavOk then
        match env.priceAfterFetch with
        | some p => (decide (p ≤ s0.max_price), update_price_status p "Browser" s0)
        | none => (false, s0)
      else (false, s0)
    else (false, s0)
  | none => (false, s0)

/-- check_stock_and_price (lines 650-703).  First the browser-DOM check:
    if the script reports available and a price is extracted, return
    price at most max_price.  Otherwise (script raised, reported
    unavailable, or no price extracted) run the fetched-HTML fallback. -/
def check_stock_and_price (env : BrowserEnv) (s : BotState) : Bool × BotState :=
  match env.jsDom with
  | some dom =>
    if js_stock_available dom then
      match env.priceAfterJs with
      | some p => (decide (p ≤ s.max_price), update_price_status p "Browser" s)
      | none => check_stock_fallback env s
    else check_stock_fallback env s
  | none => check_stock_fallback env s

/-- The stock-indicator phrases of check_stock_via_api (line 718). -/
def stock_indicators : List String :=
  ["In Stock", "Only", "left in stock", "Add to Cart"]

/-- External outcomes seen by check_stock_via_api: the fetched HTML chunk
    (none models the request raising) and the price extracted from it by
    the regex cascade of lines 720-740 (the json price field, then three
    HTML price-element patterns; none when no pattern matches). -/
structure ApiEnv where
  content : Option String
  extractedPrice : Option ℚ

/-- check_stock_via_api (lines 705-750): require the add-to-cart-button
    text, the absence of Currently unavailable and at least one stock
    indicator; then compare the extracted price against max_price, or
    return true outright when no price could be extracted. -/
def check_stock_via_api (env : ApiEnv) (s : BotState) : Bool × BotState :=
  match env.content with
  | none => (false, s)
  | some content =>
    if strContains content "add-to-cart-button" && !strContains content "Currently unavailable" then
      if stock_indicators.any (fun ind => strContains content ind) then
        match env.extractedPrice with
        | some p => (decide (p ≤ s.max_price), update_price_status p "API" s)
        | none => (true, s)
      else (false, s)
    else (false, s)

/-- async_check_stock (lines 1077-1092): submit both checks and return
    (true, current_price) if either yields true, else (false, None).
    Both submitted futures run to completion; the model fixes the
    submission order as the interleaving, which the claims do not
    depend on. -/
def async_check_stock (api : ApiEnv) (bre : BrowserEnv) (s : BotState) :
    (Bool × Option ℚ) × BotState :=
  let r1 := check_stock_via_api api s
  let r2 := check_stock_and_price bre r1.2
  if r1.1 || r2.1 then ((true, r2.2.current_price), r2.2) else ((false, none), r2.2)

/-! ## Signal handling -/

/-- How signal_handler leaves the process: return with a notice, hard
    os._exit(0), or a normal sys.exit(0). -/
inductive SigResult
  | ignored
  | forced
  | normalExit
deriving DecidableEq

/-- signal_handler (lines 168-197), registered for SIGINT and SIGTERM.
    If an exit is already in progress, print a notice and return.  If the
    previous press was under 2 seconds ago, force-close the browser and
    os._exit(0).  Otherwise record the press time, run cleanup and the
    browser-closed verification, set the exit flag, clear the in-progress
    flag and sys.exit(0). -/
def signal_handler (now : ℚ) (s : BotState) : SigResult × BotState :=
  if s.exit_in_progress then (SigResult.ignored, s)
  else
    let s1 := { s with exit_in_progress := true }
    let second : Bool :=
      match s1.last_ctrl_c_time with
      | some t => decide (now - t < 2)
      | none => false
    if second then
      (SigResult.forced, { s1 with driver_open := false, exit_requested_global := true })
    else
      let s2 := { s1 with last_ctrl_c_time := some now }
      let s3 := cleanup s2
      (SigResult.normalExit,
        { s3 with exit_requested_global := true, exit_in_progress := false })

/-! ## ultra_fast_purchase -/

/-- The purchase strategies submitted by ultra_fast_purchase. -/
inductive StrategyKind
  | jsStrategy
  | buyNowStrategy
  | cartStrategy
  | turboCartStrategy
deriving DecidableEq

/-- The strategies list of lines 772-779: the js strategy is duplicated
    twice at the end as the fastest path. -/
def ufp_strategies : List StrategyKind :=
  [StrategyKind.jsStrategy, StrategyKind.buyNowStrategy, StrategyKind.cartStrategy,
   StrategyKind.turboCartStrategy, StrategyKind.jsStrategy, StrategyKind.jsStrategy]

/-- max_wait of line 784, in seconds. -/
def max_wait : ℚ := 15

/-- The sleep of line 793, in seconds. -/
def poll_interval : ℚ := 1 / 10

/-- Number of flag polls within the wait window: the i-th poll happens at
    elapsed time i times poll_interval, and the loop condition
    elapsed < max_wait admits exactly the polls 0 to 149. -/
def numPolls : ℕ := 150

/-- The polling loop of lines 786-793: starting at poll index i with the
    given number of polls remaining, return the index of the first poll
    that reads the flag as true, if any. -/
def waitFirstTrue (flag : ℕ → Bool) : ℕ → ℕ → Option ℕ
  | _, 0 => none
  | i, fuel + 1 => if flag i then some i else waitFirstTrue flag (i + 1) fuel

/-- External view seen by ultra_fast_purchase: the successive values its
    polls read from purchase_successful, which the racing strategy threads
    set concurrently through mark_as_purchased (index numPolls is the read
    of the final return statement), and whether the browser URL contains
    checkout after the timeout (the current_url read is modelled as
    succeeding). -/
structure UfpEnv where
  flagTrace : ℕ → Bool
  urlHasCheckout : Bool

/-- ultra_fast_purchase (lines 752-807): return false immediately if the
    product was already purchased or an attempt is in flight; otherwise
    mark the attempt, submit the six strategies, poll the success flag in
    poll_interval steps until max_wait elapses, returning true on the
    first true read; after the timeout keep or clear purchase_attempted
    depending on the checkout-URL test and return the flag's current
    value.  The middle component lists the strategies submitted. -/
def ultra_fast_purchase (env : UfpEnv) (s : BotState) : Bool × List StrategyKind × BotState :=
  if has_been_purchased s || s.purchase_attempted then (false, [], s)
  else
    let s1 := { s with purchase_attempted := true }
    match waitFirstTrue env.flagTrace 0 numPolls with
    | some _ => (true, ufp_strategies, s1)
    | none =>
      let finalFlag := env.flagTrace numPolls
      if env.urlHasCheckout then (finalFlag, ufp_strategies, s1)
      else (finalFlag, ufp_strategies, { s1 with purchase_attempted := false })

/-! ## The monitoring loop -/

/-- Exception classes distinguished by monitor's handlers. -/
inductive Exc
  | keyboard
  | other
deriving DecidableEq

/-- External outcome of the inline purchase block of monitor
    (lines 1144-1247): whether some place-order click lands, and the
    environment of the mark_as_purchased call it then makes. -/
structure InlineBuyEnv where
  succeeds : Bool
  markEnv : MarkEnv

/-- The external world of one monitor-loop iteration: an exception
    delivered during the iteration (modelled at its start), and the
    environments of the two stock checks and the inline purchase. -/
structure MonIterEnv where
  exc : Option Exc
  api : ApiEnv
  browser : BrowserEnv
  buy : InlineBuyEnv

/-- Observable events of a monitor run. -/
inductive MEvent
  | stockCheck (ok : Bool) (price : Option ℚ)
  | purchaseAttempt (succeeded : Bool)
  | cleanupRun
  | slept5
  | restarted
deriving DecidableEq

/-- How the while-loop of monitor ends. -/
inductive LoopOut
  | normalExit (s : BotState)
  | returned (s : BotState)
  | raised (e : Exc) (s : BotState)
  | fuelOut (s : BotState)
deriving DecidableEq

/-- Whether one pass of the loop body continues the loop or executes the
    inner return of the inline purchase block, with the state it leaves
    and the events it emits. -/
inductive IterStep
  | cont (s : BotState) (evs : List MEvent)
  | stop (s : BotState) (evs : List MEvent)

/-- The events emitted by a loop-body pass. -/
def stepEvents : IterStep → List MEvent
  | IterStep.cont _ evs => evs
  | IterStep.stop _ evs => evs

/-- The state left by a loop-body pass. -/
def stepState : IterStep → BotState
  | IterStep.cont s _ => s
  | IterStep.stop s _ => s

/-- What the loop body does with the result of async_check_stock
    (lines 1136-1252): when the check reports in stock with a price, the
    inline purchase block runs — on success it calls mark_as_purchased,
    cleanup and returns, on failure it clears purchase_attempted and the
    loop continues; an in-stock report without a price, or an
    out-of-stock report, just continues. -/
def monitor_iter_checked (ie : MonIterEnv) (ok : Bool) (priceO : Option ℚ)
    (s4 : BotState) : IterStep :=
  let ev1 := MEvent.stockCheck ok priceO
  if ok then
    match priceO with
    | some p =>
      let s5 := if s4.in_stock_prices.contains p then s4
                else { s4 with in_stock_prices := s4.in_stock_prices ++ [p] }
      if ie.buy.succeeds then
        IterStep.stop (cleanup (mark_as_purchased ie.buy.markEnv s5))
          [ev1, MEvent.purchaseAttempt true, MEvent.cleanupRun]
      else
        IterStep.cont { s5 with purchase_attempted := false }
          [ev1, MEvent.purchaseAttempt false]
    | none => IterStep.cont s4 [ev1]
  else IterStep.cont s4 [ev1]

/-- One pass of the while-loop body of monitor (lines 1119-1257), after
    the guard and with no exception delivered: the counters advance, and
    every fifth pass runs async_check_stock and acts on its result. -/
def monitor_iter (ie : MonIterEnv) (s : BotState) : IterStep :=
  let s1 := { s with check_count := s.check_count + 1,
                     api_check_counter := s.api_check_counter + 1 }
  if 5 ≤ s1.api_check_counter then
    let s2 := { s1 with api_check_counter := 0,
                        browser_check_counter := s1.browser_check_counter + 1 }
    let s3 := if 20 ≤ s2.browser_check_counter then
                { s2 with browser_check_counter := 0 } else s2
    let cres := async_check_stock ie.api ie.browser s3
    monitor_iter_checked ie cres.1.1 cres.1.2 cres.2
  else IterStep.cont s1 []

/-- The while-loop of monitor (lines 1117-1257), fuel-bounded: check the
    guard, deliver a pending exception, otherwise run one body pass and
    either return (inline purchase success) or continue.  The result
    carries the loop outcome, the events emitted and the next iteration
    index. -/
def monitor_loop (env : ℕ → MonIterEnv) : ℕ → ℕ → BotState → LoopOut × List MEvent × ℕ
  | 0, k, s => (LoopOut.fuelOut s, [], k)
  | fuel + 1, k, s =>
    if s.purchase_successful || s.exit_requested_global then (LoopOut.normalExit s, [], k)
    else
      match (env k).exc with
      | some e => (LoopOut.raised e s, [], k + 1)
      | none =>
        match monitor_iter (env k) s with
        | IterStep.stop s' evs => (LoopOut.returned s', evs, k + 1)
        | IterStep.cont s' evs =>
          let r := monitor_loop env fuel (k + 1) s'
          (r.1, evs ++ r.2.1, r.2.2)

/-- The counter initialisation of monitor (lines 1110-1112). -/
def resetCounters (s : BotState) : BotState :=
  { s with check_count := 0, api_check_counter := 0, browser_check_counter := 0 }

/-- The exception handlers and finally clause of monitor
    (lines 1259-1267), applied to the loop outcome: a normal or returned
    exit just runs the final cleanup; a KeyboardInterrupt stops with the
    final cleanup; any other exception sleeps 5 seconds and, when no exit
    has been requested, restarts monitor (the restart continuation) from
    the beginning, with the final cleanup after the restart returns. -/
def monitor_after (restart : ℕ → BotState → Option (BotState × List MEvent)) :
    LoopOut → List MEvent → ℕ → Option (BotState × List MEvent)
  | LoopOut.fuelOut _, _, _ => none
  | LoopOut.normalExit s', evs, _ => some (cleanup s', evs ++ [MEvent.cleanupRun])
  | LoopOut.returned s', evs, _ => some (cleanup s', evs ++ [MEvent.cleanupRun])
  | LoopOut.raised Exc.keyboard s', evs, _ => some (cleanup s', evs ++ [MEvent.cleanupRun])
  | LoopOut.raised Exc.other s', evs, k' =>
    if s'.exit_requested_global then
      some (cleanup s', evs ++ [MEvent.slept5, MEvent.cleanupRun])
    else
      match restart k' s' with
      | none => none
      | some pr =>
        some (cleanup pr.1,
          evs ++ [MEvent.slept5, MEvent.restarted] ++ pr.2 ++ [MEvent.cleanupRun])

/-- monitor (lines 1094-1267), fuel-bounded in the number of restarts
    (none models running out of fuel).  If the product is already
    purchased, clean up and return before any check; otherwise run the
    loop and hand its outcome to the handlers. -/
def monitor (env : ℕ → MonIterEnv) (loopFuel : ℕ) :
    ℕ → ℕ → BotState → Option (BotState × List MEvent)
  | 0, _, _ => none
  | rf + 1, k, s =>
    if has_been_purchased s then some (cleanup s, [MEvent.cleanupRun])
    else
      let r := monitor_loop env loopFuel k (resetCounters s)
      monitor_after (fun k2 s2 => monitor env loopFuel rf k2 s2) r.1 r.2.1 r.2.2

/-! ## The operations of the bot, enumerated

  Every modelled operation that touches the bot state, used to state the
  success-flag invariant. -/

inductive BotOp
  | opLoad (env : LoadEnv)
  | opMark (env : MarkEnv)
  | opCleanup
  | opSignal (now : ℚ)
  | opApiCheck (env : ApiEnv)
  | opBrowserCheck (env : BrowserEnv)
  | opStrategyRun (env : MarkEnv) (succeeds : Bool)
  | opUfp (env : UfpEnv)

/-- State effect of each operation.  A strategy thread
    (js_purchase_strategy, buy_now_strategy, cart_strategy,
    turbo_cart_strategy) mutates the modelled state only through its
    mark_as_purchased call on success. -/
def applyOp : BotOp → BotState → BotState
  | BotOp.opLoad env, s => { s with purchase_record := (load_purchase_record env).1 }
  | BotOp.opMark env, s => mark_as_purchased env s
  | BotOp.opCleanup, s => cleanup s
  | BotOp.opSignal now, s => (signal_handler now s).2
  | BotOp.opApiCheck env, s => (check_stock_via_api env s).2
  | BotOp.opBrowserCheck env, s => (check_stock_and_price env s).2
  | BotOp.opStrategyRun env succ, s => if succ then mark_as_purchased env s else s
  | BotOp.opUfp env, s => (ultra_fast_purchase env s).2.2

/-- Whether the operation performs a mark_as_purchased whose file write
    succeeds — the only way any operation sets the success flag. -/
def opMarkWrite : BotOp → Bool
  | BotOp.opMark env => env.writeOk
  | BotOp.opStrategyRun env succ => succ && env.writeOk
  | _ => false

/-- The mark_as_purchased environment an operation invokes, if any. -/
def opMarkEnvUsed : BotOp → Option MarkEnv
  | BotOp.opMark env => some env
  | BotOp.opStrategyRun env succ => if succ then some env else none
  | _ => none

/-- The state built by __init__ (lines 76-115): the record comes from
    load_purchase_record, both purchase flags start false, no price seen,
    the globals are clear and the browser is initialised. -/
def initState (url : String) (maxp : ℚ) (lenv : LoadEnv) : BotState :=
  { product_url := url
    max_price := maxp
    purchase_record := (load_purchase_record lenv).1
    purchase_attempted := false
    purchase_successful := false
    current_price := none
    price_source := none
    in_stock_prices := []
    exit_requested_global := false
    exit_in_progress := false
    self_exit_requested := false
    last_ctrl_c_time := none
    driver_open := true
    pools_shutdown := false
    check_count := 0
    api_check_counter := 0
    browser_check_counter := 0 }

/-! ## Concrete fixtures used by witnesses and counterexamples -/

/-- A fresh bot state: no record, ceiling of 10 dollars, browser open. -/
def baseState : BotState :=
  { product_url := "https://www.amazon.com/dp/B0TEST00000"
    max_price := 10
    purchase_record := []
    purchase_attempted := false
    purchase_successful := false
    current_price := none
    price_source := none
    in_stock_prices := []
    exit_requested_global := false
    exit_in_progress := false
    self_exit_requested := false
    last_ctrl_c_time := none
    driver_open := true
    pools_shutdown := false
    check_count := 0
    api_check_counter := 0
    browser_check_counter := 0 }

/-- The base state with its own product URL already in the record. -/
def purchasedState : BotState :=
  { baseState with purchase_record := [("https://www.amazon.com/dp/B0TEST00000", 1700000000)] }

/-- A DOM with neither purchase button and no unavailability text. -/
def domAbsent : DomView :=
  { hasAddToCart := false, addToCartDisabled := false, hasBuyNow := false,
    buyNowDisabled := false, pageHasCurrentlyUnavailable := false }

/-- A browser-check environment in which both branches find nothing. -/
def browserEnvIdle : BrowserEnv :=
  { jsDom := some domAbsent, priceAfterJs := none, fetched := none,
    fetchNavOk := true, priceAfterFetch := none }

/-- An API response that passes all availability gates with a 5-dollar
    extracted price. -/
def apiEnvOk : ApiEnv :=
  { content := some "qq add-to-cart-button In Stock qq", extractedPrice := some 5 }

/-- An API response whose content passes all availability gates but
    contains no digits at all, so the price regexes extract nothing. -/
def apiEnvNoPrice : ApiEnv :=
  { content := some "zz add-to-cart-button In Stock zz", extractedPrice := none }

/-- Fetched HTML containing the add-to-cart-button text but none of the
    stock-indicator phrases of check_stock_via_api. -/
def fetchContentNoInd : String := "zz add-to-cart-button zz"

/-- A browser-check environment whose DOM has no purchase button but
    whose fetched-HTML fallback passes with a 5-dollar price. -/
def browserEnvFallback : BrowserEnv :=
  { jsDom := some domAbsent, priceAfterJs := none, fetched := some fetchContentNoInd,
    fetchNavOk := true, priceAfterFetch := some 5 }

/-- A monitor iteration in which the API check reports stock at 5 dollars
    and the inline purchase succeeds with a successful record write. -/
def iterBuy : MonIterEnv :=
  { exc := none, api := apiEnvOk, browser := browserEnvIdle,
    buy := { succeeds := true, markEnv := { now := 111, writeOk := true } } }

/-- A monitor environment repeating iterBuy forever. -/
def envBuy : ℕ → MonIterEnv := fun _ => iterBuy

/-- The events of a six-iteration monitor run under envBuy. -/
def envBuyEvents : List MEvent :=
  match monitor envBuy 6 1 0 baseState with
  | some pr => pr.2
  | none => []

/-- The final state of a six-iteration monitor run under envBuy. -/
def envBuyFinal : BotState :=
  match monitor envBuy 6 1 0 baseState with
  | some pr => pr.1
  | none => baseState

/-- A flag trace that becomes true at the third poll. -/
def ufpEnvLate : UfpEnv := { flagTrace := fun i => decide (2 ≤ i), urlHasCheckout := false }

/-- A flag trace that never becomes true. -/
def ufpEnvNever : UfpEnv := { flagTrace := fun _ => false, urlHasCheckout := false }

/-- A monitor iteration raising a generic exception. -/
def iterRaise : MonIterEnv := { iterBuy with exc := some Exc.other }

/-- A monitor iteration raising KeyboardInterrupt. -/
def iterKeyboard : MonIterEnv := { iterBuy with exc := some Exc.keyboard }

/-- A monitor environment whose first iteration raises a generic
    exception and whose later iterations raise KeyboardInterrupt. -/
def envRetry : ℕ → MonIterEnv := fun k => if k = 0 then iterRaise else iterKeyboard

/-! # Theorems -/

/-! ## Helper lemmas -/

/-- Appending a final element fixes getLast?. -/
theorem getLast_append_single (l : List MEvent) (e : MEvent) :
    (l ++ [e]).getLast? = some e := by
  induction l with
  | nil => rfl
  | cons a as ih =>
    rw [List.cons_append, List.getLast?_cons, ih]
    cases as <;> simp

/-- The key written by recordInsert is among the resulting keys. -/
theorem recordInsert_mem_keys (r : PRecord) (k : String) (v : ℚ) :
    k ∈ recordKeys (recordInsert r k v) := by
  unfold recordInsert recordKeys
  by_cases h : r.any (fun kv => kv.fst == k) = true
  · rw [if_pos h]
    rw [List.any_eq_true] at h
    obtain ⟨kv, hkv, hbeq⟩ := h
    rw [List.map_map, List.mem_map]
    exact ⟨kv, hkv, by simp [Function.comp, hbeq]⟩
  · rw [if_neg h]
    simp

/-- convGroup never produces a plain None result. -/
theorem convGroup_ne_ok_none (g : List Char) : convGroup g ≠ Except.ok none := by
  intro h
  unfold convGroup at h
  cases hq : pyFloatOfDigits (removeCommas g) <;> rw [hq] at h <;> cases h

/-- cleanup always leaves the driver closed. -/
theorem cleanup_driver_open (s : BotState) : (cleanup s).driver_open = false := by
  simp only [cleanup]
  split
  · rename_i h; simpa using h
  · rfl

/-- cleanup always records the instance exit request. -/
theorem cleanup_self_exit (s : BotState) : (cleanup s).self_exit_requested = true := by
  simp only [cleanup]
  split
  · rfl
  · rfl

/-- When the browser was open, cleanup shuts down both thread pools. -/
theorem cleanup_pools (s : BotState) (h : s.driver_open = true) :
    (cleanup s).pools_shutdown = true := by
  simp only [cleanup]
  split
  · rename_i hc; simp [h] at hc
  · rfl

/-- cleanup does not touch the success flag. -/
theorem cleanup_flag (s : BotState) :
    (cleanup s).purchase_successful = s.purchase_successful := by
  simp only [cleanup]
  split
  · rfl
  · rfl

/-! ## C8: extract_price -/

/-- C8 (amended): extract_price tries the four compiled patterns in their
    fixed order, returning the first match of the first matching pattern
    with commas removed and converted to float, and it returns None
    exactly when no pattern matches — except that the float conversion of
    the winning match can raise a ValueError (when the comma-stripped
    match is empty), which propagates instead of producing a value. -/
theorem c8_extract_price_amended (text : String) :
    (extract_price text = Except.ok none ↔
       (findFirstMatch matchP1At text.data = none ∧ findFirstMatch matchP2At text.data = none ∧
        findFirstMatch matchP3At text.data = none ∧ findFirstMatch matchP4At text.data = none)) ∧
    (∀ g, findFirstMatch matchP1At text.data = some g → extract_price text = convGroup g) ∧
    (∀ g, findFirstMatch matchP1At text.data = none →
       findFirstMatch matchP2At text.data = some g → extract_price text = convGroup g) ∧
    (∀ g, findFirstMatch matchP1At text.data = none →
       findFirstMatch matchP2At text.data = none →
       findFirstMatch matchP3At text.data = some g → extract_price text = convGroup g) ∧
    (∀ g, findFirstMatch matchP1At text.data = none →
       findFirstMatch matchP2At text.data = none →
       findFirstMatch matchP3At text.data = none →
       findFirstMatch matchP4At text.data = some g → extract_price text = convGroup g) := by
  cases h1 : findFirstMatch matchP1At text.data with
  | some g1 =>
    have he : extract_price text = convGroup g1 := by
      simp [extract_price, price_patterns, extract_price_aux, h1]
    refine ⟨?_, ?_, ?_, ?_, ?_⟩
    · rw [he]
      constructor
      · intro h; exact absurd h (convGroup_ne_ok_none g1)
      · rintro ⟨ha, -⟩; simp at ha
    · intro g hg; injection hg with hh; subst hh; exact he
    · intro g hnone _; simp at hnone
    · intro g hnone _ _; simp at hnone
    · intro g hnone _ _ _; simp at hnone
  | none =>
    cases h2 : findFirstMatch matchP2At text.data with
    | some g2 =>
      have he : extract_price text = convGroup g2 := by
        simp [extract_price, price_patterns, extract_price_aux, h1, h2]
      refine ⟨?_, ?_, ?_, ?_, ?_⟩
      · rw [he]
        constructor
        · intro h; exact absurd h (convGroup_ne_ok_none g2)
        · rintro ⟨-, hb, -⟩; simp at hb
      · intro g hg; simp at hg
      · intro g _ hg; injection hg with hh; subst hh; exact he
      · intro g _ hnone _; simp at hnone
      · intro g _ hnone _ _; simp at hnone
    | none =>
      cases h3 : findFirstMatch matchP3At text.data with
      | some g3 =>
        have he : extract_price text = convGroup g3 := by
          simp [extract_price, price_patterns, extract_price_aux, h1, h2, h3]
        refine ⟨?_, ?_, ?_, ?_, ?_⟩
        · rw [he]
          constructor
          · intro h; exact absurd h (convGroup_ne_ok_none g3)
          · rintro ⟨-, -, hc, -⟩; simp at hc
        · intro g hg; simp at hg
        · intro g _ hg; simp at hg
        · intro g _ _ hg; injection hg with hh; subst hh; exact he
        · intro g _ _ hnone _; simp at hnone
      | none =>
        cases h4 : findFirstMatch matchP4At text.data with
        | some g4 =>
          have he : extract_price text = convGroup g4 := by
            simp [extract_price, price_patterns, extract_price_aux, h1, h2, h3, h4]
          refine ⟨?_, ?_, ?_, ?_, ?_⟩
          · rw [he]
            constructor
            · intro h; exact absurd h (convGroup_ne_ok_none g4)
            · rintro ⟨-, -, -, hd⟩; simp at hd
          · intro g hg; simp at hg
          · intro g _ hg; simp at hg
          · intro g _ _ hg; simp at hg
          · intro g _ _ _ hg; injection hg with hh; subst hh; exact he
        | none =>
          have he : extract_price text = Except.ok none := by
            simp [extract_price, price_patterns, extract_price_aux, h1, h2, h3, h4]
          refine ⟨?_, ?_, ?_, ?_, ?_⟩
          · rw [he]; exact ⟨fun _ => ⟨rfl, rfl, rfl, rfl⟩, fun _ => rfl⟩
          · intro g hg; simp at hg
          · intro g _ hg; simp at hg
          · intro g _ _ hg; simp at hg
          · intro g _ _ _ hg; simp at hg

/-- C8 counterexample: on the input consisting of a dollar sign and a
    comma, the second pattern matches (its group is the bare comma), yet
    extract_price neither returns that match as a float nor returns None:
    float on the comma-stripped empty string raises a ValueError that
    escapes, refuting the claim that a match is always converted and
    returned and that None is returned exactly when no pattern matches. -/
theorem c8_counterexample :
    (findFirstMatch matchP2At ("$,".data)).isSome = true ∧
    extract_price "$," = Except.error () := by
  exact ⟨rfl, rfl⟩

/-- C8 witness: the amended description applied at a concrete input where
    the first pattern fails and the second wins. -/
theorem c8_witness : extract_price "$5" = Except.ok (some (5 : ℚ)) := by
  have h := (c8_extract_price_amended "$5").2.2.1 ("5".data) rfl rfl
  rw [h]
  rfl

/-! ## C9: load_purchase_record -/

/-- C9: load_purchase_record swallows every exception of its body: when
    the record file does not exist it writes a fresh empty record (the
    write's own failure being swallowed too), when reading or parsing
    fails the in-memory record is silently reset to empty, and an empty
    record makes has_been_purchased false for every URL, so prior-purchase
    gating is lost for everything recorded in an unreadable file. -/
theorem c9_load_record (env : LoadEnv) :
    (env.fileExists = false → env.writeOk = true →
       load_purchase_record env = ([], some [])) ∧
    (env.fileExists = true → env.parsed = none → (load_purchase_record env).1 = []) ∧
    (env.fileExists = false → (load_purchase_record env).1 = []) ∧
    (load_purchase_record_body env = Except.error () → load_purchase_record env = ([], none)) ∧
    (∀ s : BotState, s.purchase_record = [] → has_been_purchased s = false) := by
  refine ⟨?_, ?_, ?_, ?_, ?_⟩
  · intro hf hw
    simp [load_purchase_record, load_purchase_record_body, hf, hw]
  · intro hf hp
    simp [load_purchase_record, load_purchase_record_body, hf, hp]
  · intro hf
    cases hw : env.writeOk <;>
      simp [load_purchase_record, load_purchase_record_body, hf, hw]
  · intro hb
    simp [load_purchase_record, hb]
  · intro s hs
    simp [has_been_purchased, hs]

/-- C9 witness: a missing file with a succeeding write yields an empty
    in-memory record and a freshly written empty file. -/
theorem c9_witness :
    load_purchase_record { fileExists := false, parsed := none, writeOk := true } =
      ([], some []) :=
  (c9_load_record _).1 rfl rfl

/-! ## C10: mark_as_purchased -/

/-- C10: mark_as_purchased never raises (its body's exception is caught
    and its state preserved), sets purchase_successful only when the
    record-file write succeeds, and when the write fails it leaves
    purchase_successful unchanged even though the product URL has already
    been inserted into the in-memory record. -/
theorem c10_mark_as_purchased (env : MarkEnv) (s : BotState) :
    (env.writeOk = true → (mark_as_purchased env s).purchase_successful = true) ∧
    (env.writeOk = false →
       mark_as_purchased_body env s =
         Except.error
           { s with purchase_record := recordInsert s.purchase_record s.product_url env.now } ∧
       (mark_as_purchased env s).purchase_successful = s.purchase_successful ∧
       s.product_url ∈ recordKeys (mark_as_purchased env s).purchase_record) ∧
    (∀ e, mark_as_purchased_body env s = Except.error e → mark_as_purchased env s = e) := by
  refine ⟨?_, ?_, ?_⟩
  · intro hw
    simp [mark_as_purchased, mark_as_purchased_body, hw]
  · intro hw
    refine ⟨by simp [mark_as_purchased_body, hw], ?_, ?_⟩
    · simp [mark_as_purchased, mark_as_purchased_body, hw]
    · simp only [mark_as_purchased, mark_as_purchased_body, hw]
      exact recordInsert_mem_keys s.purchase_record s.product_url env.now
  · intro e hb
    simp [mark_as_purchased, hb]

/-- C10 witness: a failing write leaves the flag untouched while the URL
    is already recorded in memory. -/
theorem c10_witness :
    (mark_as_purchased { now := 3, writeOk := false } baseState).purchase_successful =
      baseState.purchase_successful ∧
    baseState.product_url ∈
      recordKeys (mark_as_purchased { now := 3, writeOk := false } baseState).purchase_record := by
  have h := (c10_mark_as_purchased { now := 3, writeOk := false } baseState).2.1 rfl
  exact ⟨h.2.1, h.2.2⟩

/-! ## C6: signal handling -/

/-- C6: the signal handler (registered for SIGINT and SIGTERM) gives
    clean shutdown with a double-press force exit: with no exit in
    progress, a press within 2 seconds of a previous one force-terminates
    via os._exit; a first press (or one at least 2 seconds after the
    previous) runs cleanup — closing the browser, and shutting down the
    thread pools when the browser was open — requests exit and leaves the
    process through a normal sys.exit; and a press while an exit is in
    progress only prints a notice and changes nothing. -/
theorem c6_signal_handler (s : BotState) (now t : ℚ) :
    (s.exit_in_progress = true → signal_handler now s = (SigResult.ignored, s)) ∧
    (s.exit_in_progress = false → s.last_ctrl_c_time = some t → now - t < 2 →
       (signal_handler now s).1 = SigResult.forced ∧
       (signal_handler now s).2.driver_open = false ∧
       (signal_handler now s).2.exit_requested_global = true) ∧
    (s.exit_in_progress = false → s.last_ctrl_c_time = none →
       (signal_handler now s).1 = SigResult.normalExit ∧
       (signal_handler now s).2.driver_open = false ∧
       (s.driver_open = true → (signal_handler now s).2.pools_shutdown = true) ∧
       (signal_handler now s).2.self_exit_requested = true ∧
       (signal_handler now s).2.exit_requested_global = true ∧
       (signal_handler now s).2.exit_in_progress = false) ∧
    (s.exit_in_progress = false → s.last_ctrl_c_time = some t → 2 ≤ now - t →
       (signal_handler now s).1 = SigResult.normalExit) := by
  have hnormal : ∀ s0 : BotState, s0.exit_in_progress = false →
      (s0.last_ctrl_c_time = none ∨ ∃ t0, s0.last_ctrl_c_time = some t0 ∧ ¬(now - t0 < 2)) →
      signal_handler now s0 =
        (SigResult.normalExit,
          { cleanup { s0 with exit_in_progress := true, last_ctrl_c_time := some now } with
              exit_requested_global := true, exit_in_progress := false }) := by
    intro s0 h1 h2
    rcases h2 with h2 | ⟨t0, h2, h3⟩
    · simp [signal_handler, h1, h2]
    · simp [signal_handler, h1, h2, h3]
  refine ⟨?_, ?_, ?_, ?_⟩
  · intro h
    simp [signal_handler, h]
  · intro h1 h2 h3
    simp [signal_handler, h1, h2, h3]
  · intro h1 h2
    rw [hnormal s h1 (Or.inl h2)]
    refine ⟨rfl, ?_, ?_, ?_, rfl, rfl⟩
    · exact cleanup_driver_open _
    · intro hd
      exact cleanup_pools _ (by simpa using hd)
    · exact cleanup_self_exit _
  · intro h1 h2 h3
    rw [hnormal s h1 (Or.inr ⟨t, h2, not_lt.mpr h3⟩)]

/-! ## waitFirstTrue lemmas -/

/-- A poll index returned by the wait loop read the flag as true. -/
theorem waitFirstTrue_flag (flag : ℕ → Bool) :
    ∀ fuel i j, waitFirstTrue flag i fuel = some j → flag j = true := by
  intro fuel
  induction fuel with
  | zero =>
    intro i j h
    simp [waitFirstTrue] at h
  | succ n ih =>
    intro i j h
    simp only [waitFirstTrue] at h
    by_cases hf : flag i = true
    · rw [if_pos hf] at h
      injection h with hh
      subst hh
      exact hf
    · rw [if_neg hf] at h
      exact ih (i + 1) j h

/-- The wait loop stops at the first in-window poll reading true. -/
theorem waitFirstTrue_some_of (flag : ℕ → Bool) :
    ∀ fuel i j, i ≤ j → j < i + fuel → flag j = true →
      (∀ l, i ≤ l → l < j → flag l = false) → waitFirstTrue flag i fuel = some j := by
  intro fuel
  induction fuel with
  | zero =>
    intro i j h1 h2 h3 h4
    exact absurd h2 (by omega)
  | succ n ih =>
    intro i j h1 h2 h3 h4
    simp only [waitFirstTrue]
    by_cases hf : flag i = true
    · rw [if_pos hf]
      have hij : i = j := by
        by_contra hne
        have hlow := h4 i (le_refl i) (lt_of_le_of_ne h1 hne)
        rw [hlow] at hf
        cases hf
      rw [hij]
    · rw [if_neg hf]
      have hne : i ≠ j := fun he => hf (he ▸ h3)
      exact ih (i + 1) j (by omega) (by omega) h3 (fun l hl1 hl2 => h4 l (by omega) hl2)

/-- The wait loop finds nothing when every in-window poll reads false. -/
theorem waitFirstTrue_none_of (flag : ℕ → Bool) :
    ∀ fuel i, (∀ j, i ≤ j → j < i + fuel → flag j = false) →
      waitFirstTrue flag i fuel = none := by
  intro fuel
  induction fuel with
  | zero =>
    intro i h
    simp [waitFirstTrue]
  | succ n ih =>
    intro i h
    simp only [waitFirstTrue]
    rw [if_neg]
    · exact ih (i + 1) (fun j hj1 hj2 => h j (by omega) (by omega))
    · simp [h i (le_refl i) (by omega)]

/-- C6 witness: concrete instances of all three behaviours. -/
theorem c6_witness :
    (signal_handler 10 { baseState with last_ctrl_c_time := some 9 }).1 = SigResult.forced ∧
    (signal_handler 10 baseState).1 = SigResult.normalExit ∧
    signal_handler 10 { baseState with exit_in_progress := true } =
      (SigResult.ignored, { baseState with exit_in_progress := true }) := by
  refine ⟨?_, ?_, ?_⟩
  · exact ((c6_signal_handler { baseState with last_ctrl_c_time := some 9 } 10 9).2.1 rfl rfl
      (by norm_num)).1
  · exact ((c6_signal_handler baseState 10 0).2.2.1 rfl rfl).1
  · exact (c6_signal_handler { baseState with exit_in_progress := true } 10 0).1 rfl

/-! ## C2: purchase-record gating -/

/-- C2: has_been_purchased holds exactly when the product URL is a key of
    the loaded purchase record; in that case monitor returns after a bare
    cleanup, emitting no stock check and no purchase attempt, and
    ultra_fast_purchase returns false without submitting any purchase
    strategy and without touching the state. -/
theorem c2_purchase_record_gating (s : BotState) (env : ℕ → MonIterEnv) (lf rf k : ℕ)
    (uenv : UfpEnv) (h : has_been_purchased s = true) :
    (∀ s' : BotState,
       has_been_purchased s' = true ↔ s'.product_url ∈ recordKeys s'.purchase_record) ∧
    monitor env lf (rf + 1) k s = some (cleanup s, [MEvent.cleanupRun]) ∧
    ultra_fast_purchase uenv s = (false, [], s) := by
  refine ⟨?_, ?_, ?_⟩
  · intro s'
    simp [has_been_purchased, recordKeys, List.any_eq_true, List.mem_map]
  · simp [monitor, h]
  · simp [ultra_fast_purchase, h]

/-- C2 witness: a state whose URL is recorded is gated everywhere. -/
theorem c2_witness :
    monitor envBuy 1 1 0 purchasedState = some (cleanup purchasedState, [MEvent.cleanupRun]) ∧
    ultra_fast_purchase ufpEnvNever purchasedState = (false, [], purchasedState) := by
  have h := c2_purchase_record_gating purchasedState envBuy 1 0 0 ufpEnvNever (by decide)
  exact ⟨h.2.1, h.2.2⟩

/-! ## C3: the ultra_fast_purchase wait loop -/

/-- C3: after submitting its six strategies, ultra_fast_purchase polls
    the success flag in 0.1-second steps against a 15-second wall-clock
    budget (exactly 150 polls, all within the window): it returns true at
    the first poll that reads true, and when no poll in the window reads
    true it stops waiting and returns the flag value read at the final
    return statement. -/
theorem c3_wait_loop (env : UfpEnv) (s : BotState)
    (h1 : has_been_purchased s = false) (h2 : s.purchase_attempted = false) :
    (max_wait = 15 ∧ poll_interval = 1 / 10 ∧ (numPolls : ℚ) * poll_interval = max_wait) ∧
    (ultra_fast_purchase env s).2.1 = ufp_strategies ∧
    (∀ i, i < numPolls → env.flagTrace i = true → (∀ j, j < i → env.flagTrace j = false) →
       (ultra_fast_purchase env s).1 = true ∧ (i : ℚ) * poll_interval < max_wait) ∧
    ((∀ i, i < numPolls → env.flagTrace i = false) →
       (ultra_fast_purchase env s).1 = env.flagTrace numPolls) := by
  have hguard : (has_been_purchased s || s.purchase_attempted) = false := by
    rw [h1, h2]
    rfl
  refine ⟨⟨rfl, rfl, by norm_num [numPolls, poll_interval, max_wait]⟩, ?_, ?_, ?_⟩
  · simp only [ultra_fast_purchase, hguard]
    cases hw : waitFirstTrue env.flagTrace 0 numPolls with
    | some i => simp
    | none => by_cases hc : env.urlHasCheckout = true <;> simp [hc]
  · intro i hi hfi hprev
    have hw : waitFirstTrue env.flagTrace 0 numPolls = some i :=
      waitFirstTrue_some_of env.flagTrace numPolls 0 i (Nat.zero_le i) (by omega) hfi
        (fun l hl1 hl2 => hprev l hl2)
    constructor
    · simp [ultra_fast_purchase, hguard, hw]
    · have hc : (i : ℚ) < 150 := by
        have hi' : i < 150 := hi
        exact_mod_cast hi'
      simp only [poll_interval, max_wait]
      linarith
  · intro hall
    have hw : waitFirstTrue env.flagTrace 0 numPolls = none :=
      waitFirstTrue_none_of env.flagTrace numPolls 0 (fun j hj1 hj2 => hall j (by omega))
    by_cases hc : env.urlHasCheckout = true <;>
      simp [ultra_fast_purchase, hguard, hw, hc]

/-- C3 witness: a flag that first reads true at the third poll makes the
    call return true; a flag that never reads true makes the call return
    the final read. -/
theorem c3_witness :
    (ultra_fast_purchase ufpEnvLate baseState).1 = true ∧
    (ultra_fast_purchase ufpEnvNever baseState).1 = ufpEnvNever.flagTrace numPolls := by
  constructor
  · exact ((c3_wait_loop ufpEnvLate baseState rfl rfl).2.2.1 2 (by norm_num [numPolls])
      rfl (by decide)).1
  · exact (c3_wait_loop ufpEnvNever baseState rfl rfl).2.2.2 (fun i _ => rfl)

/-! ## Stock-check characterizations -/

/-- A true result of the fetched-HTML fallback of check_stock_and_price
    pins down exactly its conditions: the two text tests and a scraped
    price within the ceiling — no stock-indicator phrase is consulted. -/
theorem check_stock_fallback_true (env : BrowserEnv) (s : BotState)
    (h : (check_stock_fallback env s).1 = true) :
    ∃ c, env.fetched = some c ∧ strContains c "add-to-cart-button" = true ∧
      strContains c "Currently unavailable" = false ∧
      ∃ p, env.priceAfterFetch = some p ∧ p ≤ s.max_price := by
  cases hc : env.fetched with
  | none => simp [check_stock_fallback, hc] at h
  | some c =>
    simp only [check_stock_fallback, hc] at h
    by_cases h1 :
        (strContains c "add-to-cart-button" && !strContains c "Currently unavailable") = true
    · rw [if_pos h1] at h
      by_cases h2 : env.fetchNavOk = true
      · rw [if_pos h2] at h
        cases hp : env.priceAfterFetch with
        | none => simp only [hp] at h; simp at h
        | some p =>
          simp only [hp] at h
          simp only [decide_eq_true_eq] at h
          simp only [Bool.and_eq_true, Bool.not_eq_true'] at h1
          exact ⟨c, rfl, h1.1, h1.2, p, rfl, h⟩
      · rw [if_neg h2] at h
        simp at h
    · rw [if_neg h1] at h
      simp at h

/-- A true result of check_stock_and_price comes either from the
    browser-DOM branch (an enabled purchase button and a scraped price
    within the ceiling) or from the fetched-HTML fallback. -/
theorem check_stock_and_price_true (env : BrowserEnv) (s : BotState)
    (h : (check_stock_and_price env s).1 = true) :
    (∃ d, env.jsDom = some d ∧ js_stock_available d = true ∧
       ∃ p, env.priceAfterJs = some p ∧ p ≤ s.max_price) ∨
    (∃ c, env.fetched = some c ∧ strContains c "add-to-cart-button" = true ∧
       strContains c "Currently unavailable" = false ∧
       ∃ p, env.priceAfterFetch = some p ∧ p ≤ s.max_price) := by
  cases hd : env.jsDom with
  | none =>
    simp only [check_stock_and_price, hd] at h
    exact Or.inr (check_stock_fallback_true env s h)
  | some dom =>
    simp only [check_stock_and_price, hd] at h
    by_cases hjs : js_stock_available dom = true
    · rw [if_pos hjs] at h
      cases hp : env.priceAfterJs with
      | none =>
        simp only [hp] at h
        exact Or.inr (check_stock_fallback_true env s h)
      | some p =>
        simp only [hp] at h
        simp only [decide_eq_true_eq] at h
        exact Or.inl ⟨dom, rfl, hjs, p, rfl, h⟩
    · rw [if_neg hjs] at h
      exact Or.inr (check_stock_fallback_true env s h)

/-- A true result of check_stock_via_api pins down its availability
    conditions (the conclusion says nothing about the price). -/
theorem check_stock_via_api_true (env : ApiEnv) (s : BotState)
    (h : (check_stock_via_api env s).1 = true) :
    ∃ c, env.content = some c ∧ strContains c "add-to-cart-button" = true ∧
      strContains c "Currently unavailable" = false ∧
      ∃ ind ∈ stock_indicators, strContains c ind = true := by
  cases hc : env.content with
  | none => simp [check_stock_via_api, hc] at h
  | some c =>
    simp only [check_stock_via_api, hc] at h
    by_cases h1 :
        (strContains c "add-to-cart-button" && !strContains c "Currently unavailable") = true
    · rw [if_pos h1] at h
      by_cases hind : (stock_indicators.any fun ind => strContains c ind) = true
      · simp only [Bool.and_eq_true, Bool.not_eq_true'] at h1
        rw [List.any_eq_true] at hind
        exact ⟨c, rfl, h1.1, h1.2, hind⟩
      · rw [if_neg hind] at h
        simp at h
    · rw [if_neg h1] at h
      simp at h

/-- The price side of a true check_stock_via_api result: either the
    extracted price is within the ceiling, or no price was extracted at
    all and the check reported stock anyway. -/
theorem check_stock_via_api_true_price (env : ApiEnv) (s : BotState)
    (h : (check_stock_via_api env s).1 = true) :
    (∃ p, env.extractedPrice = some p ∧ p ≤ s.max_price) ∨ env.extractedPrice = none := by
  cases hc : env.content with
  | none => simp [check_stock_via_api, hc] at h
  | some c =>
    simp only [check_stock_via_api, hc] at h
    by_cases h1 :
        (strContains c "add-to-cart-button" && !strContains c "Currently unavailable") = true
    · rw [if_pos h1] at h
      by_cases hind : (stock_indicators.any fun ind => strContains c ind) = true
      · rw [if_pos hind] at h
        cases hp : env.extractedPrice with
        | none => exact Or.inr rfl
        | some p =>
          simp only [hp] at h
          simp only [decide_eq_true_eq] at h
          exact Or.inl ⟨p, rfl, h⟩
      · rw [if_neg hind] at h
        simp at h
    · rw [if_neg h1] at h
      simp at h

/-! ## C5: what counts as available -/

/-- C5 (amended): the browser-DOM check reports available exactly when an
    add-to-cart or buy-now button exists and is not disabled; the
    fetched-HTML check of check_stock_via_api additionally requires the
    add-to-cart-button text, the absence of Currently unavailable and at
    least one stock-indicator phrase; but the fetched-HTML fallback
    inside check_stock_and_price requires only the add-to-cart-button
    text and the absence of Currently unavailable — no stock-indicator
    phrase — before its price comparison. -/
theorem c5_stock_check_amended :
    (∀ d : DomView, js_stock_available d = true ↔
       ((d.hasAddToCart = true ∧ d.addToCartDisabled = false) ∨
        (d.hasBuyNow = true ∧ d.buyNowDisabled = false))) ∧
    (∀ env s, (check_stock_via_api env s).1 = true →
       ∃ c, env.content = some c ∧ strContains c "add-to-cart-button" = true ∧
         strContains c "Currently unavailable" = false ∧
         ∃ ind ∈ stock_indicators, strContains c ind = true) ∧
    (∀ env s, (check_stock_and_price env s).1 = true →
       (∃ d, env.jsDom = some d ∧ js_stock_available d = true ∧
          ∃ p, env.priceAfterJs = some p ∧ p ≤ s.max_price) ∨
       (∃ c, env.fetched = some c ∧ strContains c "add-to-cart-button" = true ∧
          strContains c "Currently unavailable" = false ∧
          ∃ p, env.priceAfterFetch = some p ∧ p ≤ s.max_price)) := by
  refine ⟨?_, ?_, ?_⟩
  · intro d
    cases h1 : d.hasAddToCart <;> cases h2 : d.addToCartDisabled <;>
      cases h3 : d.hasBuyNow <;> cases h4 : d.buyNowDisabled <;>
      cases h5 : d.pageHasCurrentlyUnavailable <;>
      simp [js_stock_available, h1, h2, h3, h4, h5]
  · exact check_stock_via_api_true
  · exact check_stock_and_price_true

/-- C5 counterexample: a fetched chunk containing the add-to-cart-button
    text but not one single stock-indicator phrase, with no purchase
    button in the DOM, still makes check_stock_and_price report the
    product available through its fetched-HTML fallback — refuting the
    claim that the fetched-HTML check requires a stock-indicator
    phrase. -/
theorem c5_counterexample :
    (check_stock_and_price browserEnvFallback baseState).1 = true ∧
    (stock_indicators.all fun ind => !strContains fetchContentNoInd ind) = true ∧
    js_stock_available domAbsent = false := by
  refine ⟨?_, ?_, ?_⟩ <;> decide

/-- C5 witness: the via-api conditions read off a concrete passing
    response. -/
theorem c5_witness :
    ∃ c, apiEnvOk.content = some c ∧ strContains c "add-to-cart-button" = true ∧
      strContains c "Currently unavailable" = false ∧
      ∃ ind ∈ stock_indicators, strContains c ind = true :=
  c5_stock_check_amended.2.1 apiEnvOk baseState (by decide)

/-! ## Monitor events -/

/-- The events of the checked part of a loop-body pass take one of four
    literal shapes. -/
theorem monitor_iter_checked_shape (ie : MonIterEnv) (ok : Bool) (priceO : Option ℚ)
    (s4 : BotState) :
    stepEvents (monitor_iter_checked ie ok priceO s4) = [] ∨
    (∃ pr, stepEvents (monitor_iter_checked ie ok priceO s4) = [MEvent.stockCheck false pr]) ∨
    stepEvents (monitor_iter_checked ie ok priceO s4) = [MEvent.stockCheck true none] ∨
    (∃ p, stepEvents (monitor_iter_checked ie ok priceO s4) =
       [MEvent.stockCheck true (some p), MEvent.purchaseAttempt true, MEvent.cleanupRun]) ∨
    (∃ p, stepEvents (monitor_iter_checked ie ok priceO s4) =
       [MEvent.stockCheck true (some p), MEvent.purchaseAttempt false]) := by
  cases ok with
  | false =>
    refine Or.inr (Or.inl ⟨priceO, ?_⟩)
    simp [monitor_iter_checked, stepEvents]
  | true =>
    cases priceO with
    | none =>
      refine Or.inr (Or.inr (Or.inl ?_))
      simp [monitor_iter_checked, stepEvents]
    | some p =>
      by_cases hb : ie.buy.succeeds = true
      · refine Or.inr (Or.inr (Or.inr (Or.inl ⟨p, ?_⟩)))
        simp [monitor_iter_checked, stepEvents, hb]
      · refine Or.inr (Or.inr (Or.inr (Or.inr ⟨p, ?_⟩)))
        simp [monitor_iter_checked, stepEvents, hb]

/-- The events of one loop-body pass take one of five literal shapes. -/
theorem monitor_iter_shape (ie : MonIterEnv) (s : BotState) :
    stepEvents (monitor_iter ie s) = [] ∨
    (∃ pr, stepEvents (monitor_iter ie s) = [MEvent.stockCheck false pr]) ∨
    stepEvents (monitor_iter ie s) = [MEvent.stockCheck true none] ∨
    (∃ p, stepEvents (monitor_iter ie s) =
       [MEvent.stockCheck true (some p), MEvent.purchaseAttempt true, MEvent.cleanupRun]) ∨
    (∃ p, stepEvents (monitor_iter ie s) =
       [MEvent.stockCheck true (some p), MEvent.purchaseAttempt false]) := by
  simp only [monitor_iter]
  split
  · exact monitor_iter_checked_shape _ _ _ _
  · exact Or.inl rfl

/-- A purchase-attempt event of a loop-body pass comes with a stock-check
    event that reported in stock with a price. -/
theorem monitor_iter_attempt (ie : MonIterEnv) (s : BotState) (b : Bool)
    (hb : MEvent.purchaseAttempt b ∈ stepEvents (monitor_iter ie s)) :
    ∃ p, MEvent.stockCheck true (some p) ∈ stepEvents (monitor_iter ie s) := by
  rcases monitor_iter_shape ie s with h | ⟨pr, h⟩ | h | ⟨p, h⟩ | ⟨p, h⟩ <;> rw [h] at hb ⊢
  · simp at hb
  · simp at hb
  · simp at hb
  · exact ⟨p, by simp⟩
  · exact ⟨p, by simp⟩

/-- In any run of the monitor loop, a purchase-attempt event implies a
    stock-check event that reported in stock with a price. -/
theorem monitor_loop_attempt (env : ℕ → MonIterEnv) :
    ∀ fuel k s b, MEvent.purchaseAttempt b ∈ (monitor_loop env fuel k s).2.1 →
      ∃ p, MEvent.stockCheck true (some p) ∈ (monitor_loop env fuel k s).2.1 := by
  intro fuel
  induction fuel with
  | zero =>
    intro k s b hb
    simp [monitor_loop] at hb
  | succ n ih =>
    intro k s b hb
    simp only [monitor_loop] at hb ⊢
    by_cases hg : (s.purchase_successful || s.exit_requested_global) = true
    · rw [if_pos hg] at hb
      simp at hb
    · rw [if_neg hg] at hb ⊢
      cases he : (env k).exc with
      | some e =>
        simp only [he] at hb
        simp at hb
      | none =>
        simp only [he] at hb ⊢
        cases hit : monitor_iter (env k) s with
        | stop s' evs =>
          simp only [hit] at hb ⊢
          have hse : stepEvents (monitor_iter (env k) s) = evs := by rw [hit]; rfl
          have hx := monitor_iter_attempt (env k) s b (by rw [hse]; exact hb)
          rw [hse] at hx
          exact hx
        | cont s' evs =>
          simp only [hit] at hb ⊢
          have hb' : MEvent.purchaseAttempt b ∈ evs ++ (monitor_loop env n (k + 1) s').2.1 := hb
          have hse : stepEvents (monitor_iter (env k) s) = evs := by rw [hit]; rfl
          rcases List.mem_append.mp hb' with h1 | h2
          · have hx := monitor_iter_attempt (env k) s b (by rw [hse]; exact h1)
            rw [hse] at hx
            obtain ⟨p, hp⟩ := hx
            exact ⟨p, List.mem_append.mpr (Or.inl hp)⟩
          · obtain ⟨p, hp⟩ := ih (k + 1) s' b h2
            exact ⟨p, List.mem_append.mpr (Or.inr hp)⟩

/-- In any complete monitor run (restarts included), a purchase-attempt
    event implies a stock-check event that reported in stock with a
    price. -/
theorem monitor_attempt (env : ℕ → MonIterEnv) (lf : ℕ) :
    ∀ rf k s res, monitor env lf rf k s = some res →
      ∀ b, MEvent.purchaseAttempt b ∈ res.2 →
        ∃ p, MEvent.stockCheck true (some p) ∈ res.2 := by
  intro rf
  induction rf with
  | zero =>
    intro k s res h b hb
    simp [monitor] at h
  | succ n ih =>
    intro k s res h b hb
    simp only [monitor] at h
    by_cases hp : has_been_purchased s = true
    · rw [if_pos hp] at h
      injection h with h1
      subst h1
      simp at hb
    · rw [if_neg hp] at h
      rcases hl : monitor_loop env lf k (resetCounters s) with ⟨out, evs, k2⟩
      rw [hl] at h
      have h' : monitor_after (fun k2 s2 => monitor env lf n k2 s2) out evs k2 = some res := h
      clear h
      have hloopmem : ∀ b0, MEvent.purchaseAttempt b0 ∈ evs →
          ∃ p0, MEvent.stockCheck true (some p0) ∈ evs := by
        intro b0 hb0
        have hx := monitor_loop_attempt env lf k (resetCounters s) b0 (by rw [hl]; exact hb0)
        rw [hl] at hx
        exact hx
      cases out with
      | fuelOut s0 =>
        simp [monitor_after] at h'
      | normalExit s0 =>
        simp only [monitor_after] at h'
        injection h' with h1
        subst h1
        rcases List.mem_append.mp hb with h1 | h1
        · obtain ⟨p, hp2⟩ := hloopmem b h1
          exact ⟨p, List.mem_append.mpr (Or.inl hp2)⟩
        · simp at h1
      | returned s0 =>
        simp only [monitor_after] at h'
        injection h' with h1
        subst h1
        rcases List.mem_append.mp hb with h1 | h1
        · obtain ⟨p, hp2⟩ := hloopmem b h1
          exact ⟨p, List.mem_append.mpr (Or.inl hp2)⟩
        · simp at h1
      | raised e s0 =>
        cases e with
        | keyboard =>
          simp only [monitor_after] at h'
          injection h' with h1
          subst h1
          rcases List.mem_append.mp hb with h1 | h1
          · obtain ⟨p, hp2⟩ := hloopmem b h1
            exact ⟨p, List.mem_append.mpr (Or.inl hp2)⟩
          · simp at h1
        | other =>
          simp only [monitor_after] at h'
          by_cases hx : s0.exit_requested_global = true
          · rw [if_pos hx] at h'
            injection h' with h1
            subst h1
            rcases List.mem_append.mp hb with h1 | h1
            · obtain ⟨p, hp2⟩ := hloopmem b h1
              exact ⟨p, List.mem_append.mpr (Or.inl hp2)⟩
            · simp at h1
          · rw [if_neg hx] at h'
            rcases hm : monitor env lf n k2 s0 with _ | pr
            · rw [hm] at h'
              simp at h'
            · rw [hm] at h'
              injection h' with h1
              subst h1
              rcases List.mem_append.mp hb with h1 | h1
              swap
              · simp at h1
              rcases List.mem_append.mp h1 with h2 | h2
              · rcases List.mem_append.mp h2 with h3 | h3
                · obtain ⟨p, hp2⟩ := hloopmem b h3
                  refine ⟨p, ?_⟩
                  exact List.mem_append.mpr (Or.inl (List.mem_append.mpr
                    (Or.inl (List.mem_append.mpr (Or.inl hp2)))))
                · simp at h3
              · obtain ⟨p, hp2⟩ := ih k2 s0 pr hm b h2
                refine ⟨p, ?_⟩
                exact List.mem_append.mpr (Or.inl (List.mem_append.mpr (Or.inr hp2)))

/-! ## C1: purchase gated by stock checks -/

/-- C1 (amended): every purchase attempt the monitoring loop triggers
    comes from a stock check that returned true with a price in hand, and
    check_stock_and_price returns true only when an extracted price is at
    most max_price; but check_stock_via_api returns true either when an
    extracted price is at most max_price or when its availability gates
    pass and no price could be extracted at all, in which case it reports
    stock with no price constraint. -/
theorem c1_stock_gating_amended :
    (∀ env lf rf k s res, monitor env lf rf k s = some res →
       ∀ b, MEvent.purchaseAttempt b ∈ res.2 →
         ∃ p, MEvent.stockCheck true (some p) ∈ res.2) ∧
    (∀ benv s, (check_stock_and_price benv s).1 = true →
       ∃ p, (benv.priceAfterJs = some p ∨ benv.priceAfterFetch = some p) ∧ p ≤ s.max_price) ∧
    (∀ aenv s, (check_stock_via_api aenv s).1 = true →
       (∃ p, aenv.extractedPrice = some p ∧ p ≤ s.max_price) ∨
       aenv.extractedPrice = none) := by
  refine ⟨?_, ?_, ?_⟩
  · intro env lf rf k s res h b hb
    exact monitor_attempt env lf rf k s res h b hb
  · intro benv s h
    rcases check_stock_and_price_true benv s h with
      ⟨d, -, -, p, hp, hle⟩ | ⟨c, -, -, -, p, hp, hle⟩
    · exact ⟨p, Or.inl hp, hle⟩
    · exact ⟨p, Or.inr hp, hle⟩
  · intro aenv s h
    exact check_stock_via_api_true_price aenv s h

/-- C1 counterexample: an API response passing every availability gate
    but containing no extractable price (its content has no digits at
    all) makes check_stock_via_api return true with no extracted price,
    refuting the claim that each stock check returns true only when an
    extracted price is at most max_price. -/
theorem c1_counterexample :
    (check_stock_via_api apiEnvNoPrice baseState).1 = true ∧
    apiEnvNoPrice.extractedPrice = none := by
  exact ⟨by decide, rfl⟩

/-- C1 witness: a concrete monitor run whose purchase attempt is indeed
    accompanied by an in-stock check with a price. -/
theorem c1_witness : ∃ p, MEvent.stockCheck true (some p) ∈ envBuyEvents := by
  have hrun : monitor envBuy 6 1 0 baseState = some (envBuyFinal, envBuyEvents) := rfl
  exact c1_stock_gating_amended.1 envBuy 6 1 0 baseState (envBuyFinal, envBuyEvents) hrun true
    (by decide)

/-! ## Flag-preservation lemmas -/

/-- The signal handler never touches the success flag. -/
theorem signal_handler_flag (now : ℚ) (s : BotState) :
    ((signal_handler now s).2).purchase_successful = s.purchase_successful := by
  by_cases h1 : s.exit_in_progress = true
  · simp [signal_handler, h1]
  · cases h2 : s.last_ctrl_c_time with
    | none => simp [signal_handler, h1, h2, cleanup_flag]
    | some t =>
      by_cases h3 : now - t < 2
      · simp [signal_handler, h1, h2, h3]
      · simp [signal_handler, h1, h2, h3, cleanup_flag]

/-- The API stock check never touches the success flag. -/
theorem check_stock_via_api_flag (env : ApiEnv) (s : BotState) :
    ((check_stock_via_api env s).2).purchase_successful = s.purchase_successful := by
  cases hc : env.content with
  | none => simp [check_stock_via_api, hc]
  | some c =>
    simp only [check_stock_via_api, hc]
    split
    · split
      · cases hp : env.extractedPrice with
        | some p => simp [hp, update_price_status]
        | none => simp [hp]
      · rfl
    · rfl

/-- The fetched-HTML fallback never touches the success flag. -/
theorem check_stock_fallback_flag (env : BrowserEnv) (s : BotState) :
    ((check_stock_fallback env s).2).purchase_successful = s.purchase_successful := by
  cases hc : env.fetched with
  | none => simp [check_stock_fallback, hc]
  | some c =>
    simp only [check_stock_fallback, hc]
    split
    · split
      · cases hp : env.priceAfterFetch with
        | some p => simp [hp, update_price_status]
        | none => simp [hp]
      · rfl
    · rfl

/-- The browser stock check never touches the success flag. -/
theorem check_stock_and_price_flag (env : BrowserEnv) (s : BotState) :
    ((check_stock_and_price env s).2).purchase_successful = s.purchase_successful := by
  cases hd : env.jsDom with
  | none => simp [check_stock_and_price, hd, check_stock_fallback_flag]
  | some dom =>
    simp only [check_stock_and_price, hd]
    split
    · cases hp : env.priceAfterJs with
      | some p => simp [hp, update_price_status]
      | none => simp [hp, check_stock_fallback_flag]
    · exact check_stock_fallback_flag env s

/-- ultra_fast_purchase itself never writes the success flag into the
    state: only the strategy threads do, through mark_as_purchased. -/
theorem ultra_fast_purchase_flag (env : UfpEnv) (s : BotState) :
    ((ultra_fast_purchase env s).2.2).purchase_successful = s.purchase_successful := by
  simp only [ultra_fast_purchase]
  split
  · rfl
  · cases hw : waitFirstTrue env.flagTrace 0 numPolls with
    | some i => simp [hw]
    | none => by_cases hc : env.urlHasCheckout = true <;> simp [hw, hc]

/-- A normal loop exit happens only with the flag set or an exit
    requested: the guard of the while loop. -/
theorem monitor_loop_normalExit (env : ℕ → MonIterEnv) :
    ∀ fuel k s s', (monitor_loop env fuel k s).1 = LoopOut.normalExit s' →
      s'.purchase_successful = true ∨ s'.exit_requested_global = true := by
  intro fuel
  induction fuel with
  | zero =>
    intro k s s' h
    simp [monitor_loop] at h
  | succ n ih =>
    intro k s s' h
    simp only [monitor_loop] at h
    by_cases hg : (s.purchase_successful || s.exit_requested_global) = true
    · rw [if_pos hg] at h
      injection h with h1
      subst h1
      simpa using hg
    · rw [if_neg hg] at h
      cases he : (env k).exc with
      | some e =>
        simp only [he] at h
        simp at h
      | none =>
        simp only [he] at h
        cases hit : monitor_iter (env k) s with
        | stop s2 evs2 =>
          simp only [hit] at h
          simp at h
        | cont s2 evs2 =>
          simp only [hit] at h
          exact ih (k + 1) s2 s' h

/-! ## C4: the success flag is the single success signal -/

/-- C4: purchase_successful starts false in the freshly initialised bot;
    across every modelled operation its new value is the old value
    or-ed with exactly one condition — that the operation performed a
    mark_as_purchased whose write succeeded — so nothing ever resets it
    and only mark_as_purchased sets it; the ultra_fast_purchase wait loop
    concludes success only from a poll that read the flag true; and the
    monitor loop leaves its guard only once the flag is true or an exit
    was requested. -/
theorem c4_flag_invariant :
    (∀ url maxp lenv, (initState url maxp lenv).purchase_successful = false) ∧
    (∀ op s, (applyOp op s).purchase_successful =
       (s.purchase_successful || opMarkWrite op)) ∧
    (∀ op, opMarkWrite op = true →
       ∃ menv, opMarkEnvUsed op = some menv ∧ menv.writeOk = true) ∧
    (∀ flag fuel i j, waitFirstTrue flag i fuel = some j → flag j = true) ∧
    (∀ env fuel k s s', (monitor_loop env fuel k s).1 = LoopOut.normalExit s' →
       s'.purchase_successful = true ∨ s'.exit_requested_global = true) := by
  refine ⟨fun url maxp lenv => rfl, ?_, ?_, ?_, ?_⟩
  · intro op s
    cases op with
    | opLoad env => simp [applyOp, opMarkWrite]
    | opMark env =>
      cases hw : env.writeOk <;>
        simp [applyOp, opMarkWrite, mark_as_purchased, mark_as_purchased_body, hw]
    | opCleanup => simp [applyOp, opMarkWrite, cleanup_flag]
    | opSignal now => simp [applyOp, opMarkWrite, signal_handler_flag]
    | opApiCheck env => simp [applyOp, opMarkWrite, check_stock_via_api_flag]
    | opBrowserCheck env => simp [applyOp, opMarkWrite, check_stock_and_price_flag]
    | opStrategyRun env succ =>
      cases hs : succ <;> cases hw : env.writeOk <;>
        simp [applyOp, opMarkWrite, mark_as_purchased, mark_as_purchased_body, hs, hw]
    | opUfp env => simp [applyOp, opMarkWrite, ultra_fast_purchase_flag]
  · intro op h
    cases op with
    | opMark env => exact ⟨env, rfl, h⟩
    | opStrategyRun env succ =>
      rw [opMarkWrite, Bool.and_eq_true] at h
      exact ⟨env, by simp [opMarkEnvUsed, h.1], h.2⟩
    | opLoad env => simp [opMarkWrite] at h
    | opCleanup => simp [opMarkWrite] at h
    | opSignal now => simp [opMarkWrite] at h
    | opApiCheck env => simp [opMarkWrite] at h
    | opBrowserCheck env => simp [opMarkWrite] at h
    | opUfp env => simp [opMarkWrite] at h
  · intro flag fuel i j h
    exact waitFirstTrue_flag flag fuel i j h
  · intro env fuel k s s' h
    exact monitor_loop_normalExit env fuel k s s' h

/-- C4 witness: a mark_as_purchased with a succeeding write flips the
    flag from false to true through the operation equation. -/
theorem c4_witness :
    (applyOp (BotOp.opMark { now := 7, writeOk := true }) baseState).purchase_successful =
      true := by
  rw [c4_flag_invariant.2.1 (BotOp.opMark { now := 7, writeOk := true }) baseState]
  rfl

/-! ## C7: retry-on-exception -/

/-- Every successful monitor run ends with a cleanup event: the finally
    clause (and, on the early path, the explicit cleanup call) runs
    before monitor returns. -/
theorem monitor_last_cleanup (env : ℕ → MonIterEnv) (lf : ℕ) :
    ∀ rf k s res, monitor env lf rf k s = some res →
      res.2.getLast? = some MEvent.cleanupRun := by
  intro rf
  induction rf with
  | zero =>
    intro k s res h
    simp [monitor] at h
  | succ n ih =>
    intro k s res h
    simp only [monitor] at h
    by_cases hp : has_been_purchased s = true
    · rw [if_pos hp] at h
      injection h with h1
      subst h1
      rfl
    · rw [if_neg hp] at h
      rcases hl : monitor_loop env lf k (resetCounters s) with ⟨out, evs, k2⟩
      rw [hl] at h
      have h' : monitor_after (fun k2 s2 => monitor env lf n k2 s2) out evs k2 = some res := h
      clear h
      cases out with
      | fuelOut s0 =>
        simp [monitor_after] at h'
      | normalExit s0 =>
        simp only [monitor_after] at h'
        injection h' with h1
        subst h1
        rw [List.getLast?_append_cons]
        rfl
      | returned s0 =>
        simp only [monitor_after] at h'
        injection h' with h1
        subst h1
        rw [List.getLast?_append_cons]
        rfl
      | raised e s0 =>
        cases e with
        | keyboard =>
          simp only [monitor_after] at h'
          injection h' with h1
          subst h1
          rw [List.getLast?_append_cons]
          rfl
        | other =>
          simp only [monitor_after] at h'
          by_cases hx : s0.exit_requested_global = true
          · rw [if_pos hx] at h'
            injection h' with h1
            subst h1
            rw [List.getLast?_append_cons]
            rfl
          · rw [if_neg hx] at h'
            rcases hm : monitor env lf n k2 s0 with _ | pr
            · rw [hm] at h'
              simp at h'
            · rw [hm] at h'
              injection h' with h1
              subst h1
              rw [List.getLast?_append_cons]
              rfl

/-- C7: every monitor run ends in a cleanup; when the loop raises a
    KeyboardInterrupt, monitoring stops with just the final cleanup; when
    it raises any other exception, monitor sleeps 5 seconds and, provided
    no exit has been requested, restarts itself from the beginning —
    splicing the restarted run's events before its own final cleanup —
    while with an exit requested it stops without restarting. -/
theorem c7_retry_semantics (env : ℕ → MonIterEnv) (lf rf k : ℕ) (s : BotState) :
    (∀ res, monitor env lf rf k s = some res →
       res.2.getLast? = some MEvent.cleanupRun) ∧
    (∀ s' evs k2, has_been_purchased s = false →
       monitor_loop env lf k (resetCounters s) = (LoopOut.raised Exc.keyboard s', evs, k2) →
       monitor env lf (rf + 1) k s = some (cleanup s', evs ++ [MEvent.cleanupRun])) ∧
    (∀ s' evs k2, has_been_purchased s = false →
       monitor_loop env lf k (resetCounters s) = (LoopOut.raised Exc.other s', evs, k2) →
       s'.exit_requested_global = false →
       ∀ pr, monitor env lf rf k2 s' = some pr →
         monitor env lf (rf + 1) k s =
           some (cleanup pr.1,
             evs ++ [MEvent.slept5, MEvent.restarted] ++ pr.2 ++ [MEvent.cleanupRun])) ∧
    (∀ s' evs k2, has_been_purchased s = false →
       monitor_loop env lf k (resetCounters s) = (LoopOut.raised Exc.other s', evs, k2) →
       s'.exit_requested_global = true →
       monitor env lf (rf + 1) k s =
         some (cleanup s', evs ++ [MEvent.slept5, MEvent.cleanupRun])) := by
  refine ⟨?_, ?_, ?_, ?_⟩
  · intro res h
    exact monitor_last_cleanup env lf rf k s res h
  · intro s' evs k2 hb hl
    have hstep : monitor env lf (rf + 1) k s =
        monitor_after (fun k2 s2 => monitor env lf rf k2 s2)
          (LoopOut.raised Exc.keyboard s') evs k2 := by
      simp only [monitor]
      rw [if_neg (by simp [hb]), hl]
    rw [hstep]
    rfl
  · intro s' evs k2 hb hl hx pr hm
    have hstep : monitor env lf (rf + 1) k s =
        monitor_after (fun k2 s2 => monitor env lf rf k2 s2)
          (LoopOut.raised Exc.other s') evs k2 := by
      simp only [monitor]
      rw [if_neg (by simp [hb]), hl]
    rw [hstep]
    simp only [monitor_after]
    rw [if_neg (by simp [hx]), hm]
  · intro s' evs k2 hb hl hx
    have hstep : monitor env lf (rf + 1) k s =
        monitor_after (fun k2 s2 => monitor env lf rf k2 s2)
          (LoopOut.raised Exc.other s') evs k2 := by
      simp only [monitor]
      rw [if_neg (by simp [hb]), hl]
    rw [hstep]
    simp only [monitor_after]
    rw [if_pos hx]

/-- C7 witness: a first iteration raising a generic exception restarts
    monitoring (after the 5-second sleep), the restarted run is then
    stopped by a KeyboardInterrupt, and cleanup ends both runs. -/
theorem c7_witness :
    monitor envRetry 1 2 0 baseState =
      some (cleanup (cleanup (resetCounters baseState)),
        [MEvent.slept5, MEvent.restarted, MEvent.cleanupRun, MEvent.cleanupRun]) := by
  have h := (c7_retry_semantics envRetry 1 1 0 baseState).2.2.1
    (resetCounters baseState) [] 1 (by decide) (by decide) (by decide)
    (cleanup (resetCounters baseState), [MEvent.cleanupRun]) (by decide)
  simpa using h

end SniperBot
